import Mathlib

/-!
Shallow embedding of the Scotty beam-tracing core
(`src/scotty/fun_evolution_3D.py` and `src/scotty/launch.py`) and proofs
about it.  Real-valued numpy scalars are modelled by `ℝ`, complex arrays
by `Matrix (Fin n) (Fin n) ℂ`, and Python exceptions by an explicit
`Except` carrying a structured `PyError`.  External collaborators
(the dispersion model, the magnetic-field object, and the scipy
numerical routines) are abstracted as function-valued parameters, as the
specification treats them as external interfaces.
-/

open Matrix

abbrev Vec3 := ℝ × ℝ × ℝ

abbrev Mat2 := Matrix (Fin 2) (Fin 2) ℂ

abbrev Mat3 := Matrix (Fin 3) (Fin 3) ℂ

/-- Structured model of the Python exceptions raised by the embedded code. -/
inductive PyError where
  | typeError (msg : String)
  | valueError (msg : String)
  | unboundLocal (name : String)
  | beamMissesPlasma (R zeta Z residual : ℝ)
  | rootRefinement (flag : String)

/-- Values accepted for the Python parameter `Psi_BC_flag`
(a `Union` of bool, str and None). -/
inductive PyVal where
  | pynone
  | pybool (b : Bool)
  | pystr (s : String)
deriving DecidableEq

/-- Python `repr`-like rendering used in error messages. -/
def pyval_repr : PyVal → String
  | .pynone => "None"
  | .pybool true => "True"
  | .pybool false => "False"
  | .pystr s => s

/-- The record of dispersion derivatives returned by
`hamiltonian.derivatives` together with the second-partial tensors that
`hessians_3D` assembles from it.  The tensors are embedded with complex
entries, the real arrays of the source embedding canonically in `ℂ`. -/
structure DH3 where
  dH_dX : ℝ
  dH_dY : ℝ
  dH_dZ : ℝ
  dH_dKx : ℝ
  dH_dKy : ℝ
  dH_dKz : ℝ
  grad_grad_H : Mat3
  gradK_grad_H : Mat3
  gradK_gradK_H : Mat3

/-- The decoded state: positions, wavevector components and the beam matrix. -/
structure BeamState where
  q_X : ℝ
  q_Y : ℝ
  q_Z : ℝ
  K_X : ℝ
  K_Y : ℝ
  K_Z : ℝ
  Psi : Mat3

/-- `np.array` accepts at most two positional arguments (the object and
the dtype); any further positional argument raises `TypeError`. -/
def np_array_max_positional : ℕ := 2

/-- Number of positional arguments that `pack_beam_parameters_3D`
(`fun_evolution_3D.py`, lines 19-38) passes to `np.array`. -/
def pack_np_array_positional_args : ℕ := 18

/-- Embedding of `pack_beam_parameters_3D` (`fun_evolution_3D.py`,
lines 8-40).  The source builds the 18 scalar slots listed below but
hands them to `np.array` as 18 separate positional arguments, which
raises `TypeError` at every call; the intended 18-slot vector is the
`.ok` branch, which is unreachable because `18 ≤ 2` fails. -/
def pack_beam_parameters_3D (q_X q_Y q_Z K_X K_Y K_Z : ℝ) (Psi : Mat3) :
    Except PyError (Fin 18 → ℝ) :=
  if pack_np_array_positional_args ≤ np_array_max_positional then
    .ok ![q_X, q_Y, q_Z, K_X, K_Y, K_Z,
      (Psi 0 0).re, (Psi 1 1).re, (Psi 2 2).re,
      (Psi 0 1).re, (Psi 0 2).re, (Psi 1 2).re,
      (Psi 0 0).im, (Psi 1 1).im, (Psi 2 2).im,
      (Psi 0 1).im, (Psi 0 2).im, (Psi 1 2).im]
  else
    .error (.typeError ("array takes from 1 to 2 positional arguments but 18 were given"))

/-- In-place update of a single matrix entry, modelling a numpy
assignment `M[i, j] = v`. -/
def updateEntry (M : Mat3) (i j : Fin 3) (v : ℂ) : Mat3 :=
  Matrix.of fun a b => if a = i ∧ b = j then v else M a b

/-- Embedding of the Psi reconstruction inside `unpack_beam_parameters_3D`
(`fun_evolution_3D.py`, lines 58-67), one `let` per numpy assignment, in
source order.  Note that line 65 of the source reads
`Psi[:,0,1] = Psi[:,1,0]`: it copies the (still zero) lower-triangle
entry over the stored upper-triangle one. -/
def unpack_Psi (b : Fin 18 → ℝ) : Mat3 :=
  let P0 : Mat3 := 0
  let P1 := updateEntry P0 0 0 ((b 6 : ℂ) + Complex.I * (b 12 : ℂ))
  let P2 := updateEntry P1 1 1 ((b 7 : ℂ) + Complex.I * (b 13 : ℂ))
  let P3 := updateEntry P2 2 2 ((b 8 : ℂ) + Complex.I * (b 14 : ℂ))
  let P4 := updateEntry P3 0 1 ((b 9 : ℂ) + Complex.I * (b 15 : ℂ))
  let P5 := updateEntry P4 0 2 ((b 10 : ℂ) + Complex.I * (b 16 : ℂ))
  let P6 := updateEntry P5 1 2 ((b 11 : ℂ) + Complex.I * (b 17 : ℂ))
  let P7 := updateEntry P6 0 1 (P6 1 0)
  let P8 := updateEntry P7 2 0 (P7 0 2)
  let P9 := updateEntry P8 2 1 (P8 1 2)
  P9

/-- Embedding of `unpack_beam_parameters_3D` (`fun_evolution_3D.py`,
lines 44-69) for a single (1-D, 18-slot) state vector. -/
def unpack_beam_parameters_3D (b : Fin 18 → ℝ) : BeamState :=
  ⟨b 0, b 1, b 2, b 3, b 4, b 5, unpack_Psi b⟩

/-- Modelled from the spec: `hessians_3D` lives in
`scotty/hamiltonian_3D.py`, which is not part of the given sources.  Per
the specification it assembles the three second-partial tensors
(position-position, K-position, K-K) from the derivatives record. -/
def hessians_3D (dH : DH3) : Mat3 × Mat3 × Mat3 :=
  (dH.grad_grad_H, dH.gradK_grad_H, dH.gradK_gradK_H)

/-- Embedding of the Psi derivative computed by `beam_evolution_fun_3D`
(`fun_evolution_3D.py`, lines 93-108): the source sets
`grad_gradK_H = np.transpose(gradK_grad_H)` and then forms
`- grad_grad_H - Psi @ gradK_grad_H - grad_gradK_H @ Psi
 - (Psi @ gradK_gradK_H) @ Psi`. -/
noncomputable def d_Psi_d_tau (Psi grad_grad_H gradK_grad_H gradK_gradK_H : Mat3) : Mat3 :=
  - grad_grad_H - Psi * gradK_grad_H - (gradK_grad_H)ᵀ * Psi
    - Psi * gradK_gradK_H * Psi

/-- Embedding of `beam_evolution_fun_3D` (`fun_evolution_3D.py`,
lines 73-110).  The dispersion-derivative provider
(`hamiltonian.derivatives`) is an abstract external parameter. -/
noncomputable def beam_evolution_fun_3D (tau : ℝ) (beam_parameters : Fin 18 → ℝ)
    (hamiltonian_derivatives : ℝ → ℝ → ℝ → ℝ → ℝ → ℝ → DH3) :
    Except PyError (Fin 18 → ℝ) :=
  let st := unpack_beam_parameters_3D beam_parameters
  let dH := hamiltonian_derivatives st.q_X st.q_Y st.q_Z st.K_X st.K_Y st.K_Z
  let hs := hessians_3D dH
  let grad_grad_H := hs.1
  let gradK_grad_H := hs.2.1
  let gradK_gradK_H := hs.2.2
  let dPsi := d_Psi_d_tau st.Psi grad_grad_H gradK_grad_H gradK_gradK_H
  pack_beam_parameters_3D dH.dH_dKx dH.dH_dKy dH.dH_dKz
    (-dH.dH_dX) (-dH.dH_dY) (-dH.dH_dZ) dPsi

/-- State vector whose only nonzero slot is slot 9 (the real part of
Psi_xy), used to exercise the decoder. -/
def state_e9 : Fin 18 → ℝ := fun i => if i = 9 then 1 else 0

/-- The external helper functions that `launch.py` imports from
`scotty.fun_general` (file not among the given sources) and the
dispersion provider, abstracted as arbitrary functions; the
specification treats them as external collaborators.  The `field` and
`hamiltonian` objects threaded through the boundary-condition helpers
are absorbed into the concrete instance. -/
structure Externals where
  angular_frequency_to_wavenumber : ℝ → ℝ
  toroidal_to_cartesian : ℝ → ℝ → ℝ → Vec3
  cartesian_to_cylindrical : Vec3 → Vec3
  cylindrical_to_cartesian : Vec3 → Vec3
  find_K_lab_Cartesian : Vec3 → Vec3 → Vec3
  find_K_lab : Vec3 → Vec3 → Vec3
  find_Psi_3D_lab : Mat3 → ℝ → ℝ → ℝ → ℝ → Mat3
  apply_continuous_BC : ℝ → ℝ → Mat3 → ℝ → ℝ → ℝ → ℝ → ℝ → Vec3 × Mat3
  apply_discontinuous_BC : ℝ → ℝ → Mat3 → ℝ → ℝ → ℝ → ℝ → ℤ → ℝ → ℝ → Option ℝ → Vec3 × Mat3
  hamiltonian_derivatives : ℝ → ℝ → ℝ → ℝ → ℝ → ℝ → DH3

/-- The slice of the external `MagneticField` object that `launch.py`
actually consumes: the maxima of the `(R, Z)` coordinate grids and the
poloidal-flux field. -/
structure MagneticField where
  R_coord_max : ℝ
  Z_coord_max : ℝ
  poloidal_flux : ℝ → ℝ → ℝ

/-- The scipy numerical routines used by `find_entry_point`, abstracted:
`splineRoots` stands for the real roots of the non-extrapolating
`CubicSpline` through the given samples at `np.linspace(0, 1, 100)`;
`minimizeScalar` returns the abscissa `x` found by `minimize_scalar`
(whose reported `fun` is the function value there); `rootScalar`
returns `(root, converged, flag)` for the solver seeded at `x0, x1`. -/
structure SciPy where
  splineRoots : List ℝ → List ℝ
  minimizeScalar : (ℝ → ℝ) → ℝ
  rootScalar : (ℝ → ℝ) → ℝ → ℝ → ℝ × Bool × String

/-- Straight parameterised line in the beam direction
(`beam_line` inside `find_entry_point`, `launch.py` lines 465-467). -/
def beam_line (launch_position step_array : Vec3) (tau : ℝ) : Vec3 :=
  (launch_position.1 + tau * step_array.1,
   launch_position.2.1 + tau * step_array.2.1,
   launch_position.2.2 + tau * step_array.2.2)

/-- Signed poloidal-flux distance to the plasma boundary along the beam
(`poloidal_flux_boundary_along_line` inside `find_entry_point`,
`launch.py` lines 469-472). -/
def poloidal_flux_boundary_along_line (ext : Externals) (field : MagneticField)
    (launch_position step_array : Vec3) (poloidal_flux_enter : ℝ) (tau : ℝ) : ℝ :=
  let p := ext.cartesian_to_cylindrical (beam_line launch_position step_array tau)
  field.poloidal_flux p.1 p.2.2 - poloidal_flux_enter

/-- The conservative overestimate `max_length` of the distance the beam
can travel (`launch.py` lines 445-448): `np.hypot` of the bounding-box
offsets. -/
noncomputable def fe_max_length (field : MagneticField) (launch_position : Vec3) : ℝ :=
  Real.sqrt ((|launch_position.1| + field.R_coord_max) ^ 2
    + (|launch_position.2.2| + field.Z_coord_max) ^ 2)

/-- The fixed step vector parameterising the beam (`launch.py`
lines 454-463): the toroidal angle is shifted by pi and the poloidal
angle negated before `toroidal_to_cartesian` is applied to
`max_length`. -/
noncomputable def fe_step_array (ext : Externals) (field : MagneticField)
    (launch_position : Vec3) (poloidal_launch_angle toroidal_launch_angle : ℝ) : Vec3 :=
  ext.toroidal_to_cartesian (fe_max_length field launch_position)
    (-poloidal_launch_angle) (toroidal_launch_angle + Real.pi)

/-- The signed flux function along the launch ray, with the step vector
spelled out: this is `poloidal_flux_boundary_along_line` as it is used
inside `find_entry_point`. -/
noncomputable def fe_flux_function (ext : Externals) (field : MagneticField)
    (launch_position : Vec3)
    (poloidal_launch_angle toroidal_launch_angle poloidal_flux_enter : ℝ) : ℝ → ℝ :=
  poloidal_flux_boundary_along_line ext field launch_position
    (fe_step_array ext field launch_position poloidal_launch_angle toroidal_launch_angle)
    poloidal_flux_enter

/-- The 100 samples of the signed flux function at
`np.linspace(0, 1, 100)` through which the cubic spline is fitted
(`launch.py` lines 474-477). -/
noncomputable def fe_samples (ext : Externals) (field : MagneticField)
    (launch_position : Vec3)
    (poloidal_launch_angle toroidal_launch_angle poloidal_flux_enter : ℝ) : List ℝ :=
  (List.range 100).map fun i =>
    fe_flux_function ext field launch_position poloidal_launch_angle
      toroidal_launch_angle poloidal_flux_enter ((i : ℝ) / 99)

/-- Embedding of `find_entry_point` (`launch.py`, lines 409-509).  The
scipy solvers are abstract parameters; everything else follows the
source line by line.  `boundary_adjust` is the source's keyword
parameter, defaulting to `1e-8` at the call site in `launch_beam`. -/
noncomputable def find_entry_point (ext : Externals) (scipy : SciPy)
    (field : MagneticField) (launch_position : Vec3)
    (poloidal_launch_angle toroidal_launch_angle poloidal_flux_enter : ℝ)
    (boundary_adjust : ℝ) : Except PyError Vec3 :=
  let step_array := fe_step_array ext field launch_position
    poloidal_launch_angle toroidal_launch_angle
  let f := fe_flux_function ext field launch_position
    poloidal_launch_angle toroidal_launch_angle poloidal_flux_enter
  let spline_roots := scipy.splineRoots
    (fe_samples ext field launch_position poloidal_launch_angle
      toroidal_launch_angle poloidal_flux_enter)
  match spline_roots with
  | [] =>
    let minimum_x := scipy.minimizeScalar f
    let miss := ext.cartesian_to_cylindrical (beam_line launch_position step_array minimum_x)
    .error (.beamMissesPlasma miss.1 miss.2.1 miss.2.2 (f minimum_x))
  | r0 :: _ =>
    let boundary := scipy.rootScalar f r0 (r0 + 1 / 1000)
    if boundary.2.1 = false then
      .error (.rootRefinement boundary.2.2)
    else
      let boundary_tau := boundary.1
      let pb := ext.cartesian_to_cylindrical (beam_line launch_position step_array boundary_tau)
      let boundary_tau2 :=
        if field.poloidal_flux pb.1 pb.2.2 > poloidal_flux_enter then
          boundary_tau + boundary_adjust
        else boundary_tau
      .ok (ext.cartesian_to_cylindrical (beam_line launch_position step_array boundary_tau2))

/-- The deprecation warning emitted for boolean `Psi_BC_flag`
(`launch.py` lines 104-107 and 111-114). -/
def deprecation_message : String :=
  "Boolean Psi_BC_flag is deprecated, please use None, continuous, or discontinuous"

/-- The `ValueError` message for an unrecognized `Psi_BC_flag`
(`launch.py` lines 122-124), naming the offending value. -/
def bc_flag_error_message (v : PyVal) : String :=
  "Unexpected value for Psi_BC_flag: " ++ pyval_repr v
    ++ ", expected one of None, continuous, or discontinuous"

/-- Embedding of the `Psi_BC_flag` normalization at the top of
`launch_beam` (`launch.py`, lines 103-124): legacy `True` maps to
`continuous` and `False` to `None`, each with a deprecation warning;
any other value outside the three canonical ones raises `ValueError`.
Returns the warnings emitted and the normalized flag. -/
def normalize_Psi_BC_flag (v : PyVal) : List String × Except PyError (Option String) :=
  match v with
  | .pybool true => ([deprecation_message], .ok (some ("continuous")))
  | .pybool false => ([deprecation_message], .ok none)
  | .pynone => ([], .ok none)
  | .pystr s =>
    if s = "continuous" ∨ s = "discontinuous" then ([], .ok (some s))
    else ([], .error (.valueError (bc_flag_error_message (.pystr s))))

/-- `np.deg2rad`. -/
noncomputable def deg2rad (x : ℝ) : ℝ := x * Real.pi / 180

/-- The diagonal entry of the antenna-frame transverse beam matrix
(`launch.py` lines 160-162): `wavenumber_K0 * launch_beam_curvature
+ 2j * launch_beam_width ** (-2)`. -/
noncomputable def Psi_w_beam_diagonal (wavenumber_K0 curvature width : ℝ) : ℂ :=
  ((wavenumber_K0 * curvature : ℝ) : ℂ) + 2 * Complex.I * (((width ^ 2)⁻¹ : ℝ) : ℂ)

/-- `Psi_w_beam_launch_cartersian` (`launch.py` line 163):
`np.eye(2)` times the diagonal entry. -/
noncomputable def Psi_w_beam_launch_cartersian (wavenumber_K0 curvature width : ℝ) : Mat2 :=
  Psi_w_beam_diagonal wavenumber_K0 curvature width • (1 : Mat2)

/-- Modelled from the spec: `find_inverse_2D` lives in
`scotty/fun_general.py`, which is not among the given sources; the
specification describes this step as inverting the 2x2 transverse beam
matrix, embedded here as the standard adjugate-over-determinant inverse
of a 2x2 complex matrix. -/
noncomputable def find_inverse_2D (M : Mat2) : Mat2 :=
  let det := M 0 0 * M 1 1 - M 0 1 * M 1 0
  Matrix.of ![![M 1 1 / det, -(M 0 1) / det], ![-(M 1 0) / det, M 0 0 / det]]

/-- Modelled from the spec: `make_array_3x3` lives in
`scotty/fun_general.py`, which is not among the given sources; per the
specification it embeds a 2x2 matrix into a 3x3 matrix with a zero
third row and column. -/
def make_array_3x3 (M : Mat2) : Mat3 :=
  Matrix.of fun i j =>
    if hi : i.val < 2 then
      if hj : j.val < 2 then M ⟨i.val, hi⟩ ⟨j.val, hj⟩ else 0
    else 0

/-- `Psi_w_beam_inverse_launch_cartersian` (`launch.py` line 303). -/
noncomputable def Psi_w_beam_inverse_launch_cartersian
    (wavenumber_K0 curvature width : ℝ) : Mat2 :=
  find_inverse_2D (Psi_w_beam_launch_cartersian wavenumber_K0 curvature width)

/-- `Psi_w_beam_inverse_entry_cartersian` (`launch.py` lines 335-338):
`distance / K0 * np.eye(2) + Psi_w_beam_inverse_launch_cartersian`. -/
noncomputable def Psi_w_beam_inverse_entry_cartersian
    (wavenumber_K0 curvature width distance : ℝ) : Mat2 :=
  ((distance / wavenumber_K0 : ℝ) : ℂ) • (1 : Mat2)
    + Psi_w_beam_inverse_launch_cartersian wavenumber_K0 curvature width

/-- `Psi_3D_beam_entry_cartersian` (`launch.py` lines 341-343): the
entry-frame 2x2 matrix is inverted back and embedded into 3x3. -/
noncomputable def Psi_3D_beam_entry_cartersian
    (wavenumber_K0 curvature width distance : ℝ) : Mat3 :=
  make_array_3x3 (find_inverse_2D
    (Psi_w_beam_inverse_entry_cartersian wavenumber_K0 curvature width distance))

/-- `rotation_matrix_pol` (`launch.py` lines 166-172). -/
noncomputable def rotation_matrix_pol (a : ℝ) : Mat3 :=
  Matrix.of ![![(Real.cos a : ℂ), 0, (Real.sin a : ℂ)],
    ![0, 1, 0],
    ![(-Real.sin a : ℂ), 0, (Real.cos a : ℂ)]]

/-- `rotation_matrix_tor` (`launch.py` lines 174-180). -/
noncomputable def rotation_matrix_tor (a : ℝ) : Mat3 :=
  Matrix.of ![![(Real.cos a : ℂ), (Real.sin a : ℂ), 0],
    ![(-Real.sin a : ℂ), (Real.cos a : ℂ), 0],
    ![0, 0, 1]]

/-- The two numpy assignments `Psi[:,2] = grad_H; Psi[2,:] = grad_H`
(`launch.py` lines 249-250), executed in that order, so the final row 2
is `grad_H` and column 2 is `grad_H` elsewhere. -/
def set_third_row_and_column (M : Mat3) (g : Vec3) : Mat3 :=
  let gc : Fin 3 → ℝ := ![g.1, g.2.1, g.2.2]
  Matrix.of fun i j =>
    if i = 2 then ((gc j : ℝ) : ℂ)
    else if j = 2 then ((gc i : ℝ) : ℂ)
    else M i j

/-- The tuple returned by `launch_beam` (`launch.py` lines 88-100 and
397-406).  The entry-frame outputs and the distance are `Option`s: the
early no-vacuum-propagation return (lines 291-301) fills them with
`None` or with the all-NaN placeholder that the specification describes
as signalling *not computed*, both modelled as `none`. -/
structure LaunchResult where
  K_initial : Vec3
  initial_position : Vec3
  launch_K : Vec3
  Psi_3D_lab_initial : Mat3
  Psi_3D_lab_launch : Mat3
  Psi_3D_lab_entry : Option Mat3
  Psi_3D_lab_entry_cartersian : Option Mat3
  distance_from_launch_to_entry : Option ℝ

/-- Embedding of `launch_beam` (`launch.py`, lines 32-406).  The result
is the list of warnings emitted together with either a `PyError` or the
returned value; the bare `return print(...)` on lines 281-283 returns
Python `None`, modelled as `.ok none`.  For a `flag_coordinate_system`
other than `cylindrical` or `cartesian` no branch of lines 131-155
assigns the wavevector locals, so building `launch_K` on line 156
raises `UnboundLocalError`, modelled by the `none` case of `kOpt`. -/
noncomputable def launch_beam (ext : Externals) (scipy : SciPy)
    (field : MagneticField)
    (toroidal_launch_angle_Torbeam poloidal_launch_angle_Torbeam : ℝ)
    (launch_beam_width launch_beam_curvature : ℝ)
    (launch_position : Vec3) (launch_angular_frequency : ℝ) (mode_flag : ℤ)
    (vacuumLaunch_flag vacuum_propagation_flag : Bool)
    (Psi_BC_flag : PyVal) (poloidal_flux_enter delta_R delta_Z : ℝ)
    (temperature : Option ℝ) (flag_coordinate_system : String) :
    List String × Except PyError (Option LaunchResult) :=
  let norm := normalize_Psi_BC_flag Psi_BC_flag
  let warns := norm.1
  match norm.2 with
  | .error e => (warns, .error e)
  | .ok flagBC =>
    let toroidal_launch_angle := deg2rad toroidal_launch_angle_Torbeam
    let poloidal_launch_angle := deg2rad poloidal_launch_angle_Torbeam
    let wavenumber_K0 := ext.angular_frequency_to_wavenumber launch_angular_frequency
    let kOpt : Option Vec3 :=
      if flag_coordinate_system = "cylindrical" then
        some (-wavenumber_K0 * Real.cos toroidal_launch_angle * Real.cos poloidal_launch_angle,
          -wavenumber_K0 * Real.sin toroidal_launch_angle * Real.cos poloidal_launch_angle
            * launch_position.1,
          -wavenumber_K0 * Real.sin poloidal_launch_angle)
      else if flag_coordinate_system = "cartesian" then
        some (-wavenumber_K0 * Real.cos toroidal_launch_angle * Real.cos poloidal_launch_angle,
          -wavenumber_K0 * Real.sin toroidal_launch_angle * Real.cos poloidal_launch_angle,
          -wavenumber_K0 * Real.sin poloidal_launch_angle)
      else none
    match kOpt with
    | none => (warns, .error (.unboundLocal ("K_R_launch")))
    | some launch_K =>
      let K_R_launch := launch_K.1
      let K_zeta_launch := launch_K.2.1
      let K_Z_launch := launch_K.2.2
      let poloidal_rotation_angle := poloidal_launch_angle + Real.pi / 2
      let Psi_w_launch := Psi_w_beam_launch_cartersian
        wavenumber_K0 launch_beam_curvature launch_beam_width
      let rotation_matrix := rotation_matrix_pol poloidal_rotation_angle
        * rotation_matrix_tor toroidal_launch_angle
      let rotation_matrix_inverse := rotation_matrixᵀ
      let Psi_3D_beam_launch_cartersian := make_array_3x3 Psi_w_launch
      let Psi_3D_beam_launch_cartersian2 :=
        if flag_coordinate_system = "cartesian" then
          let dH := ext.hamiltonian_derivatives launch_position.1 launch_position.2.1
            launch_position.2.2 K_R_launch K_zeta_launch K_Z_launch
          set_third_row_and_column Psi_3D_beam_launch_cartersian
            (dH.dH_dX, dH.dH_dY, dH.dH_dZ)
        else Psi_3D_beam_launch_cartersian
      let Psi_3D_lab_launch_cartersian :=
        rotation_matrix_inverse * Psi_3D_beam_launch_cartersian2 * rotation_matrix
      let Psi_3D_lab_launch :=
        if flag_coordinate_system = "cylindrical" then
          ext.find_Psi_3D_lab Psi_3D_lab_launch_cartersian
            launch_position.1 launch_position.2.1 K_R_launch K_zeta_launch
        else Psi_3D_lab_launch_cartersian
      if vacuum_propagation_flag = false then
        (warns, .ok (some ⟨(K_R_launch, K_zeta_launch, K_Z_launch), launch_position,
          launch_K, Psi_3D_lab_launch, Psi_3D_lab_launch, none, none, none⟩))
      else
        let Psi_w_inverse_launch := Psi_w_beam_inverse_launch_cartersian
          wavenumber_K0 launch_beam_curvature launch_beam_width
        match find_entry_point ext scipy field launch_position
          poloidal_launch_angle toroidal_launch_angle poloidal_flux_enter
          (1 / 100000000) with
        | .error e => (warns, .error e)
        | .ok entry_position =>
          let distance_from_launch_to_entry := Real.sqrt
            (launch_position.1 ^ 2 + entry_position.1 ^ 2
              - 2 * launch_position.1 * entry_position.1
                * Real.cos (entry_position.2.1 - launch_position.2.1)
              + (launch_position.2.2 - entry_position.2.2) ^ 2)
          let K_lab_Cartesian_launch := ext.find_K_lab_Cartesian launch_K launch_position
          let K_lab_Cartesian_entry := K_lab_Cartesian_launch
          let entry_position_Cartesian := ext.cylindrical_to_cartesian entry_position
          let K_lab_entry := ext.find_K_lab K_lab_Cartesian_entry entry_position_Cartesian
          let K_R_entry := K_lab_entry.1
          let K_zeta_entry := K_lab_entry.2.1
          let K_Z_entry := K_lab_entry.2.2
          let Psi_3D_beam_entry := Psi_3D_beam_entry_cartersian wavenumber_K0
            launch_beam_curvature launch_beam_width distance_from_launch_to_entry
          let Psi_3D_lab_entry_cartersian :=
            rotation_matrix_inverse * Psi_3D_beam_entry * rotation_matrix
          let Psi_3D_lab_entry := ext.find_Psi_3D_lab Psi_3D_lab_entry_cartersian
            entry_position.1 entry_position.2.1 K_R_entry K_zeta_entry
          let initial_position := entry_position
          let KPsi :=
            if flagBC = some ("discontinuous") then
              ext.apply_discontinuous_BC entry_position.1 entry_position.2.2
                Psi_3D_lab_entry K_R_entry K_zeta_entry K_Z_entry
                launch_angular_frequency mode_flag delta_R delta_Z temperature
            else if flagBC = some ("continuous") then
              ext.apply_continuous_BC entry_position.1 entry_position.2.2
                Psi_3D_lab_entry K_R_entry K_zeta_entry K_Z_entry delta_R delta_Z
            else
              ((K_R_entry, K_zeta_entry, K_Z_entry), Psi_3D_lab_entry)
          (warns, .ok (some ⟨KPsi.1, initial_position, launch_K, KPsi.2,
            Psi_3D_lab_launch, some Psi_3D_lab_entry, some Psi_3D_lab_entry_cartersian,
            some distance_from_launch_to_entry⟩))

/-- Trivial instantiation of the external helpers, used to evaluate the
embedded functions at concrete inputs: coordinate conversions are the
identity and the beam direction is the zero vector. -/
def ext0 : Externals :=
  ⟨fun x => x, fun _ _ _ => (0, 0, 0), fun p => p, fun p => p,
    fun k _ => k, fun k _ => k, fun M _ _ _ _ => M,
    fun _ _ M a b c _ _ => ((a, b, c), M),
    fun _ _ M a b c _ _ _ _ _ => ((a, b, c), M),
    fun _ _ _ _ _ _ => ⟨0, 0, 0, 0, 0, 0, 0, 0, 0⟩⟩

/-- Instantiation of the external helpers whose beam direction is the
unit x-vector, so the parameterised ray is `tau ↦ (tau, 0, 0)`. -/
def extRay : Externals :=
  ⟨fun x => x, fun _ _ _ => (1, 0, 0), fun p => p, fun p => p,
    fun k _ => k, fun k _ => k, fun M _ _ _ _ => M,
    fun _ _ M a b c _ _ => ((a, b, c), M),
    fun _ _ M a b c _ _ _ _ _ => ((a, b, c), M),
    fun _ _ _ _ _ _ => ⟨0, 0, 0, 0, 0, 0, 0, 0, 0⟩⟩

/-- Magnetic field with identically zero poloidal flux. -/
def field0 : MagneticField := ⟨0, 0, fun _ _ => 0⟩

/-- Magnetic field whose poloidal flux decreases linearly in `R`:
`flux(R, Z) = -R`, so the flux label -1 is crossed at `R = 1`. -/
noncomputable def fieldC9 : MagneticField := ⟨1, 1, fun R _ => -R⟩

/-- Scipy stub whose spline-root extraction finds no roots. -/
def sciEmpty : SciPy := ⟨fun _ => [], fun _ => 0, fun _ _ _ => (0, false, "")⟩

/-- Scipy stub whose spline-root extraction returns the single root 0
and whose refinement converges to 0. -/
def sciRoot0 : SciPy := ⟨fun _ => [0], fun _ => 0, fun _ _ _ => (0, true, "ok")⟩

/-- Scipy stub modelling a refinement that converges to a root lying
`2e-8` short of the true boundary crossing, i.e. still just outside the
plasma even after one `1e-8` nudge. -/
noncomputable def sciC9 : SciPy :=
  ⟨fun _ => [1 - 2 / 100000000], fun _ => 0,
    fun _ _ _ => (1 - 2 / 100000000, true, "converged")⟩

/-- C1: `pack_beam_parameters_3D` never succeeds: the source passes its
18 scalar slots to `np.array` as 18 positional arguments, which raises
`TypeError` for every position, wavevector and beam matrix, so no state
vector is produced and the encode/decode round trip cannot hold. -/
theorem pack_beam_parameters_3D_always_fails
    (q_X q_Y q_Z K_X K_Y K_Z : ℝ) (Psi : Mat3) :
    pack_beam_parameters_3D q_X q_Y q_Z K_X K_Y K_Z Psi =
      .error (.typeError ("array takes from 1 to 2 positional arguments but 18 were given")) :=
  rfl

/-- C2: `beam_evolution_fun_3D` never returns the re-encoded
derivative: its final call to `pack_beam_parameters_3D` raises
`TypeError` for every tau, state vector and dispersion-derivative
provider. -/
theorem beam_evolution_fun_3D_always_fails (tau : ℝ) (v : Fin 18 → ℝ)
    (ham : ℝ → ℝ → ℝ → ℝ → ℝ → ℝ → DH3) :
    beam_evolution_fun_3D tau v ham =
      .error (.typeError ("array takes from 1 to 2 positional arguments but 18 were given")) :=
  rfl

/-- C3: on the state vector whose slot 9 (the real part of Psi_xy) is 1
and whose other slots are 0, the decoder returns a Psi whose (0,1) and
(1,0) entries are both 0, not `slot9 + i*slot15 = 1`: line 65 of
`fun_evolution_3D.py` copies the still-zero lower-triangle entry over
the stored upper-triangle one instead of mirroring it. -/
theorem unpack_beam_parameters_3D_zeroes_Psi_xy :
    ((unpack_beam_parameters_3D state_e9).Psi 0 1 = 0
      ∧ (unpack_beam_parameters_3D state_e9).Psi 1 0 = 0)
    ∧ (unpack_beam_parameters_3D state_e9).Psi 0 1
        ≠ (state_e9 9 : ℂ) + Complex.I * (state_e9 15 : ℂ) := by
  have h01 : (unpack_beam_parameters_3D state_e9).Psi 0 1 = 0 := by
    simp [unpack_beam_parameters_3D, unpack_Psi, updateEntry, state_e9]
  have h10 : (unpack_beam_parameters_3D state_e9).Psi 1 0 = 0 := by
    simp [unpack_beam_parameters_3D, unpack_Psi, updateEntry, state_e9]
  refine ⟨⟨h01, h10⟩, ?_⟩
  rw [h01]
  simp [state_e9]

/-- C4: the Psi derivative computed by `beam_evolution_fun_3D` is
symmetric whenever Psi, Hpp (= grad_grad_H) and Hkk (= gradK_gradK_H)
are symmetric; Hpk is the transpose of Hkp (= gradK_grad_H) by
construction in the source. -/
theorem d_Psi_d_tau_symmetric (Psi gg kg kk : Mat3)
    (hP : Psiᵀ = Psi) (hgg : ggᵀ = gg) (hkk : kkᵀ = kk) :
    (d_Psi_d_tau Psi gg kg kk)ᵀ = d_Psi_d_tau Psi gg kg kk := by
  simp only [d_Psi_d_tau, Matrix.transpose_sub, Matrix.transpose_neg,
    Matrix.transpose_mul, Matrix.transpose_transpose, hP, hgg, hkk,
    Matrix.mul_assoc]
  abel

/-- Witness for C4 at the concrete symmetric input Psi = 1, Hpp = Hkp =
Hkk = 0. -/
theorem d_Psi_d_tau_symmetric_witness :
    ((1 : Mat3)ᵀ = 1 ∧ (0 : Mat3)ᵀ = 0 ∧ (0 : Mat3)ᵀ = 0)
    ∧ (d_Psi_d_tau 1 0 0 0)ᵀ = d_Psi_d_tau 1 0 0 0 :=
  ⟨⟨Matrix.transpose_one, Matrix.transpose_zero, Matrix.transpose_zero⟩,
    d_Psi_d_tau_symmetric 1 0 0 0 Matrix.transpose_one Matrix.transpose_zero
      Matrix.transpose_zero⟩

/-- C5: whenever the cubic spline through the 100 samples of the signed
flux function has no real root, `find_entry_point` raises instead of
returning, and the error reports the cylindrical coordinates of the
closest approach found by 1-D scalar minimization together with the
residual flux distance there. -/
theorem find_entry_point_reports_miss (ext : Externals) (scipy : SciPy)
    (field : MagneticField) (lp : Vec3) (pol tor enter adjust : ℝ)
    (h : scipy.splineRoots (fe_samples ext field lp pol tor enter) = []) :
    find_entry_point ext scipy field lp pol tor enter adjust =
      .error (.beamMissesPlasma
        (ext.cartesian_to_cylindrical (beam_line lp (fe_step_array ext field lp pol tor)
          (scipy.minimizeScalar (fe_flux_function ext field lp pol tor enter)))).1
        (ext.cartesian_to_cylindrical (beam_line lp (fe_step_array ext field lp pol tor)
          (scipy.minimizeScalar (fe_flux_function ext field lp pol tor enter)))).2.1
        (ext.cartesian_to_cylindrical (beam_line lp (fe_step_array ext field lp pol tor)
          (scipy.minimizeScalar (fe_flux_function ext field lp pol tor enter)))).2.2
        (fe_flux_function ext field lp pol tor enter
          (scipy.minimizeScalar (fe_flux_function ext field lp pol tor enter)))) := by
  simp only [find_entry_point, h]

/-- Witness for C5: a concrete field and scipy stub with no spline
roots, for which `find_entry_point` fails with the closest-approach
report. -/
theorem find_entry_point_reports_miss_witness :
    sciEmpty.splineRoots (fe_samples ext0 field0 (0, 0, 0) 0 0 0) = []
    ∧ find_entry_point ext0 sciEmpty field0 (0, 0, 0) 0 0 0 0 =
        .error (.beamMissesPlasma 0 0 0 0) := by
  have h : sciEmpty.splineRoots (fe_samples ext0 field0 (0, 0, 0) 0 0 0) = [] := rfl
  refine ⟨h, ?_⟩
  have hmain := find_entry_point_reports_miss ext0 sciEmpty field0 (0, 0, 0) 0 0 0 0 h
  simpa [ext0, sciEmpty, field0, beam_line, fe_flux_function,
    poloidal_flux_boundary_along_line, fe_step_array, fe_max_length] using hmain

/-- C9: evaluation of the boundary-straddle guard at a concrete input on
which the refined root converges `2e-8` short of the true crossing: the
guard nudges the parameter forward exactly once by `1e-8` and returns,
even though the poloidal flux at the returned entry point is still
strictly greater than `poloidal_flux_enter` (here `-1 + 1e-8 > -1`),
so the guard does not step *until* the field value crosses. -/
theorem find_entry_point_single_nudge_insufficient :
    find_entry_point extRay sciC9 fieldC9 (0, 0, 0) 0 0 (-1) (1 / 100000000) =
      .ok (1 - 2 / 100000000 + 1 / 100000000, 0, 0)
    ∧ fieldC9.poloidal_flux (1 - 2 / 100000000 + 1 / 100000000) 0 > -1 := by
  constructor
  · norm_num [find_entry_point, extRay, sciC9, fieldC9, beam_line,
      fe_flux_function, poloidal_flux_boundary_along_line, fe_step_array]
  · norm_num [fieldC9]

/-- C10: whenever `find_entry_point` (called with the default
`boundary_adjust = 1e-8`) returns instead of raising, and the local
root refinement returns a nonnegative parameter, the returned
cylindrical coordinates are those of the Cartesian point
`launch_position + tau * step_array` for some `tau ≥ 0`, where
`step_array` is the single fixed vector built from the shifted launch
angles and the conservative `max_length` bound. -/
theorem find_entry_point_entry_on_launch_ray (ext : Externals) (scipy : SciPy)
    (field : MagneticField) (lp : Vec3) (pol tor enter : ℝ) (p : Vec3)
    (hret : find_entry_point ext scipy field lp pol tor enter (1 / 100000000) = .ok p)
    (hroot : ∀ x0 x1 : ℝ,
      0 ≤ (scipy.rootScalar (fe_flux_function ext field lp pol tor enter) x0 x1).1) :
    ∃ tau : ℝ, 0 ≤ tau ∧
      p = ext.cartesian_to_cylindrical
        (beam_line lp (fe_step_array ext field lp pol tor) tau) := by
  simp only [find_entry_point] at hret
  cases hcase : scipy.splineRoots (fe_samples ext field lp pol tor enter) with
  | nil =>
    rw [hcase] at hret
    exact absurd hret (by simp)
  | cons r0 rest =>
    rw [hcase] at hret
    simp only [] at hret
    by_cases hconv :
      (scipy.rootScalar (fe_flux_function ext field lp pol tor enter) r0 (r0 + 1 / 1000)).2.1
        = false
    · rw [if_pos hconv] at hret
      exact absurd hret (by simp)
    · rw [if_neg hconv] at hret
      have hr0 := hroot r0 (r0 + 1 / 1000)
      set rtau :=
        (scipy.rootScalar (fe_flux_function ext field lp pol tor enter) r0 (r0 + 1 / 1000)).1
        with hrtau
      by_cases hflux : field.poloidal_flux
          (ext.cartesian_to_cylindrical
            (beam_line lp (fe_step_array ext field lp pol tor) rtau)).1
          (ext.cartesian_to_cylindrical
            (beam_line lp (fe_step_array ext field lp pol tor) rtau)).2.2 > enter
      · rw [if_pos hflux] at hret
        refine ⟨rtau + 1 / 100000000, by positivity, ?_⟩
        exact (Except.ok.inj hret).symm
      · rw [if_neg hflux] at hret
        refine ⟨rtau, hr0, ?_⟩
        exact (Except.ok.inj hret).symm

/-- Witness for C10: a concrete instantiation on which
`find_entry_point` returns, where the entry point indeed lies on the
launch ray. -/
theorem find_entry_point_entry_on_launch_ray_witness :
    (find_entry_point ext0 sciRoot0 field0 (0, 0, 0) 0 0 0 (1 / 100000000) = .ok (0, 0, 0)
      ∧ ∀ x0 x1 : ℝ,
        0 ≤ (sciRoot0.rootScalar (fe_flux_function ext0 field0 (0, 0, 0) 0 0 0) x0 x1).1)
    ∧ ∃ tau : ℝ, 0 ≤ tau ∧
        (0, 0, 0) = ext0.cartesian_to_cylindrical
          (beam_line (0, 0, 0) (fe_step_array ext0 field0 (0, 0, 0) 0 0) tau) := by
  have h1 : find_entry_point ext0 sciRoot0 field0 (0, 0, 0) 0 0 0 (1 / 100000000)
      = .ok (0, 0, 0) := by
    norm_num [find_entry_point, ext0, sciRoot0, field0, beam_line,
      fe_flux_function, poloidal_flux_boundary_along_line, fe_step_array]
  have h2 : ∀ x0 x1 : ℝ,
      0 ≤ (sciRoot0.rootScalar (fe_flux_function ext0 field0 (0, 0, 0) 0 0 0) x0 x1).1 :=
    fun _ _ => le_refl 0
  exact ⟨⟨h1, h2⟩,
    find_entry_point_entry_on_launch_ray ext0 sciRoot0 field0 (0, 0, 0) 0 0 0 (0, 0, 0) h1 h2⟩

/-- C6: for any `flag_coordinate_system` other than `cylindrical` and
`cartesian`, `launch_beam` does not fail with a configuration error
naming the invalid value: no branch of the wavevector computation
assigns `K_R_launch`, so building `launch_K` raises
`UnboundLocalError` first — after the angle and wavenumber conversions
and before the (unreachable) flag check, which would anyway only print
and return `None`. -/
theorem launch_beam_invalid_coordinate_flag_unbound
    (ext : Externals) (scipy : SciPy) (field : MagneticField)
    (tor pol w c : ℝ) (lp : Vec3) (om : ℝ) (m : ℤ) (vl vp : Bool)
    (enter dR dZ : ℝ) (temp : Option ℝ) (s : String)
    (h1 : s ≠ "cylindrical") (h2 : s ≠ "cartesian") :
    launch_beam ext scipy field tor pol w c lp om m vl vp .pynone enter dR dZ temp s
      = ([], .error (.unboundLocal ("K_R_launch"))) := by
  simp [launch_beam, normalize_Psi_BC_flag, h1, h2]

/-- Witness for C6 at the concrete invalid flag value `bogus`. -/
theorem launch_beam_invalid_coordinate_flag_unbound_witness :
    (("bogus" : String) ≠ "cylindrical" ∧ ("bogus" : String) ≠ "cartesian")
    ∧ launch_beam ext0 sciEmpty field0 0 0 0 0 (0, 0, 0) 0 0 true true .pynone 0 0 0
        none ("bogus")
      = ([], .error (.unboundLocal ("K_R_launch"))) :=
  ⟨⟨by decide, by decide⟩,
    launch_beam_invalid_coordinate_flag_unbound ext0 sciEmpty field0 0 0 0 0 (0, 0, 0)
      0 0 true true 0 0 0 none ("bogus") (by decide) (by decide)⟩

/-- C7: `Psi_BC_flag` normalization in `launch_beam`: legacy `True`
maps to `continuous` and `False` to `None`, each with a deprecation
warning; any value outside the three canonical ones makes `launch_beam`
fail with a `ValueError` naming the offending value, for every other
argument — i.e. before any geometry is computed. -/
theorem launch_beam_Psi_BC_flag_normalization :
    normalize_Psi_BC_flag (.pybool true) = ([deprecation_message], .ok (some ("continuous")))
    ∧ normalize_Psi_BC_flag (.pybool false) = ([deprecation_message], .ok none)
    ∧ ∀ v : PyVal, v ≠ .pynone → v ≠ .pybool true → v ≠ .pybool false →
        v ≠ .pystr ("continuous") → v ≠ .pystr ("discontinuous") →
        ∀ (ext : Externals) (scipy : SciPy) (field : MagneticField)
          (tor pol w c : ℝ) (lp : Vec3) (om : ℝ) (m : ℤ) (vl vp : Bool)
          (enter dR dZ : ℝ) (temp : Option ℝ) (fcs : String),
          launch_beam ext scipy field tor pol w c lp om m vl vp v enter dR dZ temp fcs
            = ([], .error (.valueError (bc_flag_error_message v))) := by
  refine ⟨rfl, rfl, ?_⟩
  intro v h0 ht hf hc hd ext scipy field tor pol w c lp om m vl vp enter dR dZ temp fcs
  cases v with
  | pynone => exact absurd rfl h0
  | pybool b =>
    cases b with
    | true => exact absurd rfl ht
    | false => exact absurd rfl hf
  | pystr s =>
    have hs1 : s ≠ "continuous" := fun h => hc (by rw [h])
    have hs2 : s ≠ "discontinuous" := fun h => hd (by rw [h])
    simp [launch_beam, normalize_Psi_BC_flag, hs1, hs2]

/-- Witness for C7 at the concrete unrecognized flag value `bogus`. -/
theorem launch_beam_Psi_BC_flag_normalization_witness :
    (PyVal.pystr ("bogus") ≠ PyVal.pynone
      ∧ PyVal.pystr ("bogus") ≠ PyVal.pybool true
      ∧ PyVal.pystr ("bogus") ≠ PyVal.pybool false
      ∧ PyVal.pystr ("bogus") ≠ PyVal.pystr ("continuous")
      ∧ PyVal.pystr ("bogus") ≠ PyVal.pystr ("discontinuous"))
    ∧ launch_beam ext0 sciEmpty field0 0 0 0 0 (0, 0, 0) 0 0 true true
        (.pystr ("bogus")) 0 0 0 none ("cylindrical")
      = ([], .error (.valueError (bc_flag_error_message (.pystr ("bogus"))))) :=
  ⟨⟨by decide, by decide, by decide, by decide, by decide⟩,
    launch_beam_Psi_BC_flag_normalization.2.2 (.pystr ("bogus")) (by decide) (by decide)
      (by decide) (by decide) (by decide) ext0 sciEmpty field0 0 0 0 0 (0, 0, 0) 0 0
      true true 0 0 0 none ("cylindrical")⟩

/-- `find_inverse_2D` on a scalar multiple of the identity is the true
scalar inverse. -/
theorem find_inverse_2D_smul_one (z : ℂ) (hz : z ≠ 0) :
    find_inverse_2D (z • (1 : Mat2)) = z⁻¹ • (1 : Mat2) := by
  ext i j
  fin_cases i <;> fin_cases j <;>
    simp [find_inverse_2D, Matrix.smul_apply, Matrix.one_apply]

/-- The third row and column of `make_array_3x3` are zero. -/
theorem make_array_3x3_zero_third (M : Mat2) (i : Fin 3) :
    make_array_3x3 M 2 i = 0 ∧ make_array_3x3 M i 2 = 0 := by
  constructor
  · simp [make_array_3x3]
  · fin_cases i <;> simp [make_array_3x3]

/-- The antenna-frame diagonal has imaginary part `2 / w^2`. -/
theorem Psi_w_beam_diagonal_im (K0 c w : ℝ) :
    (Psi_w_beam_diagonal K0 c w).im = 2 * (w ^ 2)⁻¹ := by
  simp only [Psi_w_beam_diagonal, Complex.add_im, Complex.ofReal_im, zero_add,
    Complex.mul_im, Complex.ofReal_re, Complex.mul_re, Complex.I_re, Complex.I_im]
  norm_num

/-- C8: the entry-frame 2x2 transverse beam matrix used by
`launch_beam` is the genuine matrix inverse of
`(d / K0) * I + (launch matrix)⁻¹`, where the code's 2x2 inversion of
the launch matrix `(K0*c + 2i/w^2) * I` is itself the genuine inverse,
and the 3x3 embedding `Psi_3D_beam_entry_cartersian` has zero third row
and column. -/
theorem vacuum_diffraction_closed_form (K0 c w d : ℝ) (hw : 0 < w) (hK0 : 0 < K0) :
    (Psi_w_beam_inverse_launch_cartersian K0 c w * Psi_w_beam_launch_cartersian K0 c w = 1
      ∧ Psi_w_beam_launch_cartersian K0 c w * Psi_w_beam_inverse_launch_cartersian K0 c w = 1)
    ∧ (find_inverse_2D (Psi_w_beam_inverse_entry_cartersian K0 c w d)
          * Psi_w_beam_inverse_entry_cartersian K0 c w d = 1
      ∧ Psi_w_beam_inverse_entry_cartersian K0 c w d
          * find_inverse_2D (Psi_w_beam_inverse_entry_cartersian K0 c w d) = 1)
    ∧ ∀ i : Fin 3, Psi_3D_beam_entry_cartersian K0 c w d 2 i = 0
        ∧ Psi_3D_beam_entry_cartersian K0 c w d i 2 = 0 := by
  have hw2 : (0 : ℝ) < (w ^ 2)⁻¹ := by positivity
  have himpos : 0 < (Psi_w_beam_diagonal K0 c w).im := by
    rw [Psi_w_beam_diagonal_im]; positivity
  have hpsi0 : Psi_w_beam_diagonal K0 c w ≠ 0 := by
    intro h; rw [h] at himpos; simp at himpos
  have hL : Psi_w_beam_launch_cartersian K0 c w = Psi_w_beam_diagonal K0 c w • 1 := rfl
  have hinvL : Psi_w_beam_inverse_launch_cartersian K0 c w
      = (Psi_w_beam_diagonal K0 c w)⁻¹ • 1 := by
    rw [Psi_w_beam_inverse_launch_cartersian, hL,
      find_inverse_2D_smul_one _ hpsi0]
  have hE : Psi_w_beam_inverse_entry_cartersian K0 c w d
      = (((d / K0 : ℝ) : ℂ) + (Psi_w_beam_diagonal K0 c w)⁻¹) • 1 := by
    rw [Psi_w_beam_inverse_entry_cartersian, hinvL, add_smul]
  have huim : (((d / K0 : ℝ) : ℂ) + (Psi_w_beam_diagonal K0 c w)⁻¹).im < 0 := by
    have h1 : (((d / K0 : ℝ) : ℂ) + (Psi_w_beam_diagonal K0 c w)⁻¹).im
        = -(Psi_w_beam_diagonal K0 c w).im / Complex.normSq (Psi_w_beam_diagonal K0 c w) := by
      simp [Complex.add_im, Complex.ofReal_im, Complex.inv_im]
    rw [h1]
    exact div_neg_of_neg_of_pos (neg_lt_zero.mpr himpos) (Complex.normSq_pos.mpr hpsi0)
  have hu0 : ((d / K0 : ℝ) : ℂ) + (Psi_w_beam_diagonal K0 c w)⁻¹ ≠ 0 := by
    intro h; rw [h] at huim; simp at huim
  refine ⟨⟨?_, ?_⟩, ⟨?_, ?_⟩, ?_⟩
  · rw [hinvL, hL]
    simp [Matrix.smul_mul, Matrix.mul_smul, smul_smul, inv_mul_cancel₀ hpsi0,
      mul_inv_cancel₀ hpsi0]
  · rw [hinvL, hL]
    simp [Matrix.smul_mul, Matrix.mul_smul, smul_smul, inv_mul_cancel₀ hpsi0,
      mul_inv_cancel₀ hpsi0]
  · rw [hE, find_inverse_2D_smul_one _ hu0, Matrix.smul_mul, one_mul, smul_smul,
      inv_mul_cancel₀ hu0, one_smul]
  · rw [hE, find_inverse_2D_smul_one _ hu0, Matrix.smul_mul, one_mul, smul_smul,
      mul_inv_cancel₀ hu0, one_smul]
  · intro i
    exact make_array_3x3_zero_third
      (find_inverse_2D (Psi_w_beam_inverse_entry_cartersian K0 c w d)) i

/-- Witness for C8 at the concrete launch parameters
`K0 = 1, c = 0, w = 1, d = 2`. -/
theorem vacuum_diffraction_closed_form_witness :
    ((0 : ℝ) < 1 ∧ (0 : ℝ) < 1)
    ∧ ((Psi_w_beam_inverse_launch_cartersian 1 0 1 * Psi_w_beam_launch_cartersian 1 0 1 = 1
      ∧ Psi_w_beam_launch_cartersian 1 0 1 * Psi_w_beam_inverse_launch_cartersian 1 0 1 = 1)
    ∧ (find_inverse_2D (Psi_w_beam_inverse_entry_cartersian 1 0 1 2)
          * Psi_w_beam_inverse_entry_cartersian 1 0 1 2 = 1
      ∧ Psi_w_beam_inverse_entry_cartersian 1 0 1 2
          * find_inverse_2D (Psi_w_beam_inverse_entry_cartersian 1 0 1 2) = 1)
    ∧ ∀ i : Fin 3, Psi_3D_beam_entry_cartersian 1 0 1 2 2 i = 0
        ∧ Psi_3D_beam_entry_cartersian 1 0 1 2 i 2 = 0) :=
  ⟨⟨zero_lt_one, zero_lt_one⟩,
    vacuum_diffraction_closed_form 1 0 1 2 zero_lt_one zero_lt_one⟩
